import Mathlib

/-!
Verification of the test-email service (src/main.py).

The service is a single FastAPI endpoint `POST /api/test-email` that selects
email content by `email_type` ("verification", "password_reset", "custom"),
dispatches it through `send_email_gmail`, and maps the boolean dispatch result
to an HTTP response.  We embed the pure request-handling logic shallowly:

* the four template builders are embedded as the exact string concatenations
  the Python f-strings denote;
* Python exceptions (`HTTPException(status, detail)` and any other exception)
  are embedded as an `Except PyExc` result;
* the network dispatcher `send_email_gmail` is embedded in two ways: inside
  the handler as an arbitrary boolean-valued function (its observable type),
  and on its own as a computation over an oracle of fallible SMTP steps,
  to reason about its catch-all error conversion;
* the handler additionally returns the list of dispatch calls it made, so
  that "the dispatcher is (not) invoked with these arguments" is expressible.
-/

namespace EmailTest

/-- Truthiness of a Python `Optional[str]` under `not x`:
`None` and the empty string are falsy, any other string is truthy. -/
def pyFalsy : Option String → Bool
  | Option.none => true
  | Option.some s => s == ""

/-- Request model `TestEmailRequest` (src/main.py lines 18-23).
`email_type` is kept as a raw string; the `Literal` annotation of the source
is embedded separately as the predicate `validEmailType`. -/
structure TestEmailRequest where
  to_email : String
  email_type : String
  subject : Option String
  text_content : Option String
  html_content : Option String
deriving DecidableEq

/-- The `Literal["verification", "password_reset", "custom"]` annotation on
`email_type` (src/main.py line 20). -/
def validEmailType (t : String) : Bool :=
  t == "verification" || t == "password_reset" || t == "custom"

/-- Response model `SuccessResponse` (src/main.py lines 26-28). -/
structure SuccessResponse where
  success : Bool
  message : String
deriving DecidableEq

/-- A Python exception as observed at the handler boundary: either a
deliberately raised `HTTPException(status, detail)` or any other exception,
identified by its string description `str(e)`. -/
inductive PyExc where
  | http (status : Nat) (detail : String)
  | other (descr : String)
deriving DecidableEq

/-- One invocation of the dispatcher `send_email_gmail` with its four
arguments (src/main.py lines 172-177). -/
structure DispatchCall where
  to_email : String
  subject : String
  text_content : String
  html_content : String
deriving DecidableEq

/-- Template builder `get_verification_email_text` (src/main.py lines 31-39):
the f-string body with `link` interpolated verbatim. -/
def get_verification_email_text (link : String) : String :=
  "\n    Verify Your Email\n\n    Please click the following link to verify your email address:\n    "
  ++ (link
  ++ "\n\n    If you did not request this, please ignore this email.\n    ")

/-- Template builder `get_verification_email_html` (src/main.py lines 42-52). -/
def get_verification_email_html (link : String) : String :=
  "\n    <html>\n        <body>\n            <h2>Verify Your Email</h2>\n            <p>Please click the button below to verify your email address:</p>\n            <a href=\""
  ++ (link
  ++ "\" style=\"background-color: #4CAF50; color: white; padding: 14px 20px; text-decoration: none; border-radius: 4px; display: inline-block;\">Verify Email</a>\n            <p>If you did not request this, please ignore this email.</p>\n        </body>\n    </html>\n    ")

/-- Template builder `get_password_reset_email_text` (src/main.py lines 55-63). -/
def get_password_reset_email_text (link : String) : String :=
  "\n    Password Reset Request\n\n    Please click the following link to reset your password:\n    "
  ++ (link
  ++ "\n\n    If you did not request this, please ignore this email.\n    ")

/-- Template builder `get_password_reset_email_html` (src/main.py lines 66-76). -/
def get_password_reset_email_html (link : String) : String :=
  "\n    <html>\n        <body>\n            <h2>Password Reset Request</h2>\n            <p>Please click the button below to reset your password:</p>\n            <a href=\""
  ++ (link
  ++ "\" style=\"background-color: #f44336; color: white; padding: 14px 20px; text-decoration: none; border-radius: 4px; display: inline-block;\">Reset Password</a>\n            <p>If you did not request this, please ignore this email.</p>\n        </body>\n    </html>\n    ")

/-- The hardcoded test link of the verification branch (src/main.py line 144). -/
def verification_test_link : String := "https://example.com/verify?token=TEST_TOKEN_123"

/-- The hardcoded test link of the password-reset branch (src/main.py line 150). -/
def password_reset_test_link : String := "https://example.com/reset?token=TEST_TOKEN_123"

/-- The detail string raised by the handler's `else` branch for an
`email_type` outside the enumeration (src/main.py lines 166-169). -/
def invalid_type_detail (t : String) : String :=
  "Invalid email_type: " ++ t ++ ". Must be \x27verification\x27, \x27password_reset\x27, or \x27custom\x27"

/-- The tail of the handler after content selection (src/main.py lines 171-190):
invoke the dispatcher once with the selected content; `False` raises
`HTTPException(500, ...)`, `True` yields the success response.  The second
component records the dispatch calls made. -/
def afterContent (send : DispatchCall → Bool) (request : TestEmailRequest)
    (subject text_content html_content : String) :
    Except PyExc SuccessResponse × List DispatchCall :=
  let call : DispatchCall := ⟨request.to_email, subject, text_content, html_content⟩
  if send call then
    (Except.ok ⟨true,
        "Test email (" ++ request.email_type ++ ") sent successfully to " ++ request.to_email⟩,
      [call])
  else
    (Except.error (PyExc.http 500 "Failed to send test email. Check server logs for details."),
      [call])

/-- The body of the `try` block of the handler `test_email`
(src/main.py lines 138-190): content selection by `email_type`, then
dispatch.  The dispatcher is passed in as an arbitrary boolean-valued
function, the observable type of `send_email_gmail`. -/
def test_email_body (send : DispatchCall → Bool) (request : TestEmailRequest) :
    Except PyExc SuccessResponse × List DispatchCall :=
  if request.email_type == "verification" then
    afterContent send request "🏥 Test Verification Email"
      (get_verification_email_text verification_test_link)
      (get_verification_email_html verification_test_link)
  else if request.email_type == "password_reset" then
    afterContent send request "🔒 Test Password Reset Email"
      (get_password_reset_email_text password_reset_test_link)
      (get_password_reset_email_html password_reset_test_link)
  else if request.email_type == "custom" then
    if pyFalsy request.subject || pyFalsy request.text_content || pyFalsy request.html_content then
      (Except.error (PyExc.http 400
          "Custom email type requires subject, text_content, and html_content fields"), [])
    else
      afterContent send request (request.subject.getD "") (request.text_content.getD "")
        (request.html_content.getD "")
  else
    (Except.error (PyExc.http 400 (invalid_type_detail request.email_type)), [])

/-- The outermost exception boundary of the handler (src/main.py lines 192-199):
`except HTTPException: raise` re-raises client errors unchanged, while
`except Exception as e` wraps anything else into `HTTPException(500, ...)`
carrying `str(e)`. -/
def test_email_outer (r : Except PyExc SuccessResponse) : Except PyExc SuccessResponse :=
  match r with
  | Except.ok v => Except.ok v
  | Except.error (PyExc.http s d) => Except.error (PyExc.http s d)
  | Except.error (PyExc.other e) =>
      Except.error (PyExc.http 500 ("Failed to send test email: " ++ e))

/-- The handler `test_email` (src/main.py lines 111-199): the `try` body
wrapped in the outermost exception boundary, together with the record of
dispatch calls. -/
def test_email (send : DispatchCall → Bool) (request : TestEmailRequest) :
    Except PyExc SuccessResponse × List DispatchCall :=
  let r := test_email_body send request
  (test_email_outer r.1, r.2)

/-- Oracle for the fallible steps performed by `send_email_gmail`
(src/main.py lines 79-108): message construction, connect, STARTTLS,
authentication, transmission, and teardown.  Each step either succeeds or
raises an exception carrying its description. -/
structure SmtpEnv where
  build_message : Except String Unit
  connect : Except String Unit
  starttls : Except String Unit
  login : Except String Unit
  send_message : Except String Unit
  quit : Except String Unit

/-- The sequence of steps inside the `try` of `send_email_gmail`
(src/main.py lines 81-104): the first failing step aborts the rest. -/
def smtp_transaction (env : SmtpEnv) : Except String Unit := do
  env.build_message
  env.connect
  env.starttls
  env.login
  env.send_message
  env.quit

/-- Dispatcher `send_email_gmail` (src/main.py lines 79-108): run the SMTP
transaction; success returns `true`, any exception is caught by the
catch-all `except` and converted to `false`.  The return type `Bool`
embeds the fact that no exception escapes this function. -/
def send_email_gmail (env : SmtpEnv) : Bool :=
  match smtp_transaction env with
  | Except.ok _ => true
  | Except.error _ => false

/-- Modelled from the spec: the HTTP framework's schema validation of the
request body is an external collaborator, not code under src/.  Per the
spec, an invalid `email_type` value is rejected by schema validation with
a 400 before reaching business logic. -/
def schema_validate_email_type (t : String) : Except PyExc Unit :=
  if validEmailType t then Except.ok ()
  else Except.error (PyExc.http 400 ("Invalid email_type value: " ++ t))

/-- Substring containment: `pat` occurs verbatim inside `s`. -/
def containsStr (s pat : String) : Prop :=
  ∃ a b : String, s = a ++ (pat ++ b)

/-- A request that passes the handler's validation and reaches the dispatch
step: a canned type, or `custom` with all three content fields present and
non-empty. -/
def validRequest (request : TestEmailRequest) : Prop :=
  request.email_type = "verification" ∨ request.email_type = "password_reset"
    ∨ (request.email_type = "custom" ∧ pyFalsy request.subject = false
        ∧ pyFalsy request.text_content = false ∧ pyFalsy request.html_content = false)

theorem afterContent_snd (send : DispatchCall → Bool) (request : TestEmailRequest)
    (subj t h : String) :
    (afterContent send request subj t h).2 = [⟨request.to_email, subj, t, h⟩] := by
  cases hs : send ⟨request.to_email, subj, t, h⟩ <;> simp [afterContent, hs]

theorem afterContent_fst_ne_http400 (send : DispatchCall → Bool) (request : TestEmailRequest)
    (subj t h d : String) :
    (afterContent send request subj t h).1 ≠ Except.error (PyExc.http 400 d) := by
  cases hs : send ⟨request.to_email, subj, t, h⟩ <;> simp [afterContent, hs]

theorem containsStr_append_right_of (p s pat q r : String) (hp : p = q ++ (pat ++ r)) :
    containsStr (p ++ s) pat :=
  ⟨q, r ++ s, by rw [hp, String.append_assoc, String.append_assoc]⟩

/-- Claim C1: a "custom" request with any of subject, text_content or
html_content missing or empty is answered with a 400 HTTPException carrying
the fixed detail string, and the dispatcher is never invoked. -/
theorem custom_missing_field_rejected (send : DispatchCall → Bool) (request : TestEmailRequest)
    (htype : request.email_type = "custom")
    (hmiss : pyFalsy request.subject = true ∨ pyFalsy request.text_content = true
      ∨ pyFalsy request.html_content = true) :
    (test_email send request).1 = Except.error (PyExc.http 400
        "Custom email type requires subject, text_content, and html_content fields")
      ∧ (test_email send request).2 = [] := by
  rcases hmiss with h | h | h <;>
    simp [test_email, test_email_body, test_email_outer, htype, h]

/-- Witness for C1 at a concrete request missing text_content and
html_content. -/
theorem custom_missing_field_rejected_check :
    (test_email (fun _ => true)
        ⟨"a@b.com", "custom", Option.some "S", Option.none, Option.none⟩).1
      = Except.error (PyExc.http 400
          "Custom email type requires subject, text_content, and html_content fields")
    ∧ (test_email (fun _ => true)
        ⟨"a@b.com", "custom", Option.some "S", Option.none, Option.none⟩).2 = [] :=
  custom_missing_field_rejected _ _ rfl (Or.inr (Or.inl rfl))

/-- Claim C2: a "custom" request with all three content fields present and
non-empty invokes the dispatcher exactly once, with the caller's to_email
and the three caller-supplied values verbatim. -/
theorem custom_dispatch_verbatim (send : DispatchCall → Bool) (request : TestEmailRequest)
    (s t h : String)
    (htype : request.email_type = "custom")
    (hs : request.subject = Option.some s) (hsne : s ≠ "")
    (ht : request.text_content = Option.some t) (htne : t ≠ "")
    (hh : request.html_content = Option.some h) (hhne : h ≠ "") :
    (test_email send request).2 = [⟨request.to_email, s, t, h⟩] := by
  simp [test_email, test_email_body, htype, hs, ht, hh, pyFalsy, hsne, htne, hhne,
    afterContent_snd]

/-- Witness for C2 at a concrete custom request. -/
theorem custom_dispatch_verbatim_check :
    (test_email (fun _ => true)
        ⟨"a@b.com", "custom", Option.some "Subj", Option.some "Text",
          Option.some "<h1>H</h1>"⟩).2
      = [⟨"a@b.com", "Subj", "Text", "<h1>H</h1>"⟩] :=
  custom_dispatch_verbatim _ _ "Subj" "Text" "<h1>H</h1>" rfl rfl (by decide) rfl (by decide)
    rfl (by decide)

set_option maxRecDepth 8192 in
/-- Claim C3: for email_type "verification" or "password_reset" the handler
dispatches exactly the fixed subject, text body and HTML body built from the
hardcoded test link — values independent of the recipient — and those bodies
contain the test link and the template boilerplate. -/
theorem canned_content_fixed (send : DispatchCall → Bool) (request : TestEmailRequest) :
    (request.email_type = "verification" →
      (test_email send request).2
        = [⟨request.to_email, "🏥 Test Verification Email",
            get_verification_email_text verification_test_link,
            get_verification_email_html verification_test_link⟩]
      ∧ containsStr (get_verification_email_text verification_test_link) verification_test_link
      ∧ containsStr (get_verification_email_html verification_test_link) verification_test_link
      ∧ containsStr (get_verification_email_text verification_test_link) "Verify Your Email"
      ∧ containsStr (get_verification_email_html verification_test_link) "Verify Your Email")
    ∧ (request.email_type = "password_reset" →
      (test_email send request).2
        = [⟨request.to_email, "🔒 Test Password Reset Email",
            get_password_reset_email_text password_reset_test_link,
            get_password_reset_email_html password_reset_test_link⟩]
      ∧ containsStr (get_password_reset_email_text password_reset_test_link)
          password_reset_test_link
      ∧ containsStr (get_password_reset_email_html password_reset_test_link)
          password_reset_test_link
      ∧ containsStr (get_password_reset_email_text password_reset_test_link)
          "Password Reset Request"
      ∧ containsStr (get_password_reset_email_html password_reset_test_link)
          "Password Reset Request") := by
  constructor
  · intro h
    refine ⟨?_, ?_, ?_, ?_, ?_⟩
    · simp [test_email, test_email_body, h, afterContent_snd]
    · exact ⟨_, _, rfl⟩
    · exact ⟨_, _, rfl⟩
    · exact containsStr_append_right_of _ _ _ "\n    "
        "\n\n    Please click the following link to verify your email address:\n    "
        (by decide)
    · exact containsStr_append_right_of _ _ _ "\n    <html>\n        <body>\n            <h2>"
        "</h2>\n            <p>Please click the button below to verify your email address:</p>\n            <a href=\""
        (by decide)
  · intro h
    refine ⟨?_, ?_, ?_, ?_, ?_⟩
    · simp [test_email, test_email_body, h, afterContent_snd]
    · exact ⟨_, _, rfl⟩
    · exact ⟨_, _, rfl⟩
    · exact containsStr_append_right_of _ _ _ "\n    "
        "\n\n    Please click the following link to reset your password:\n    "
        (by decide)
    · exact containsStr_append_right_of _ _ _ "\n    <html>\n        <body>\n            <h2>"
        "</h2>\n            <p>Please click the button below to reset your password:</p>\n            <a href=\""
        (by decide)

/-- Witness for C3 at a concrete verification request. -/
theorem canned_content_fixed_check :
    (test_email (fun _ => true)
        ⟨"a@b.com", "verification", Option.none, Option.none, Option.none⟩).2
      = [⟨"a@b.com", "🏥 Test Verification Email",
          get_verification_email_text verification_test_link,
          get_verification_email_html verification_test_link⟩] :=
  ((canned_content_fixed (fun _ => true)
      ⟨"a@b.com", "verification", Option.none, Option.none, Option.none⟩).1 rfl).1

/-- Claim C4: when a request passes validation and the dispatcher returns
false, the endpoint answers with the 500 HTTPException carrying the generic
failure detail, and no success response is produced. -/
theorem dispatch_failure_yields_500 (send : DispatchCall → Bool) (request : TestEmailRequest)
    (hvalid : validRequest request) (hsend : ∀ c, send c = false) :
    (test_email send request).1
      = Except.error (PyExc.http 500 "Failed to send test email. Check server logs for details.")
    ∧ ∀ v, (test_email send request).1 ≠ Except.ok v := by
  have he : (test_email send request).1
      = Except.error (PyExc.http 500
          "Failed to send test email. Check server logs for details.") := by
    rcases hvalid with h | h | ⟨h, h1, h2, h3⟩
    · simp [test_email, test_email_body, test_email_outer, afterContent, h, hsend]
    · simp [test_email, test_email_body, test_email_outer, afterContent, h, hsend]
    · simp [test_email, test_email_body, test_email_outer, afterContent, h, h1, h2, h3, hsend]
  exact ⟨he, fun v hv => by rw [he] at hv; exact Except.noConfusion hv⟩

/-- Witness for C4 at a concrete verification request with a failing
dispatcher. -/
theorem dispatch_failure_yields_500_check :
    (test_email (fun _ => false)
        ⟨"a@b.com", "verification", Option.none, Option.none, Option.none⟩).1
      = Except.error (PyExc.http 500
          "Failed to send test email. Check server logs for details.") :=
  (dispatch_failure_yields_500 _ _ (Or.inl rfl) (fun _ => rfl)).1

/-- Claim C5: when a request passes validation and the dispatcher returns
true, the endpoint answers 200 with success = true and the message built
from the email_type and the recipient address. -/
theorem dispatch_success_yields_200 (send : DispatchCall → Bool) (request : TestEmailRequest)
    (hvalid : validRequest request) (hsend : ∀ c, send c = true) :
    (test_email send request).1
      = Except.ok ⟨true,
          "Test email (" ++ request.email_type ++ ") sent successfully to "
            ++ request.to_email⟩ := by
  rcases hvalid with h | h | ⟨h, h1, h2, h3⟩
  · simp [test_email, test_email_body, test_email_outer, afterContent, h, hsend]
  · simp [test_email, test_email_body, test_email_outer, afterContent, h, hsend]
  · simp [test_email, test_email_body, test_email_outer, afterContent, h, h1, h2, h3, hsend]

/-- Witness for C5: the example of the spec, to_email "a@b.com" with
email_type "verification" and a succeeding dispatcher, yields exactly the
documented message. -/
theorem dispatch_success_yields_200_check :
    (test_email (fun _ => true)
        ⟨"a@b.com", "verification", Option.none, Option.none, Option.none⟩).1
      = Except.ok ⟨true, "Test email (verification) sent successfully to a@b.com"⟩ :=
  dispatch_success_yields_200 _ _ (Or.inl rfl) (fun _ => rfl)

/-- Claim C6: `send_email_gmail` returns true exactly when every step of the
SMTP transaction succeeds; any failing step is caught inside the function and
converted to the return value false, each step being attempted at most once
(the first failure aborts the rest), and no exception escapes (the function
is total with return type Bool). -/
theorem send_email_gmail_catches_failures (env : SmtpEnv) :
    (send_email_gmail env = true ↔ smtp_transaction env = Except.ok ())
    ∧ ∀ msg, smtp_transaction env = Except.error msg → send_email_gmail env = false := by
  unfold send_email_gmail
  cases he : smtp_transaction env with
  | ok u => cases u; simp
  | error msg => simp

/-- Witness for C6: an environment whose authentication step fails makes the
dispatcher return false. -/
theorem send_email_gmail_catches_failures_check :
    send_email_gmail ⟨Except.ok (), Except.ok (), Except.ok (),
        Except.error "535 authentication failed", Except.ok (), Except.ok ()⟩ = false :=
  (send_email_gmail_catches_failures _).2 "535 authentication failed" rfl

/-- Claim C7: at the outermost handler boundary, an HTTPException passes
through unchanged (same status and detail), while any other exception is
converted to a 500 HTTPException whose detail contains the exception's
string description. -/
theorem outer_boundary_policy (r : Except PyExc SuccessResponse) :
    (∀ s d, r = Except.error (PyExc.http s d) →
      test_email_outer r = Except.error (PyExc.http s d))
    ∧ (∀ e, r = Except.error (PyExc.other e) →
      test_email_outer r = Except.error (PyExc.http 500 ("Failed to send test email: " ++ e))
        ∧ containsStr ("Failed to send test email: " ++ e) e) := by
  constructor
  · intro s d hr
    rw [hr]
    rfl
  · intro e hr
    rw [hr]
    exact ⟨rfl, ⟨"Failed to send test email: ", "", by rw [String.append_empty]⟩⟩

/-- Witness for C7 at a concrete client error and a concrete unexpected
exception. -/
theorem outer_boundary_policy_check :
    test_email_outer (Except.error (PyExc.http 404 "not found"))
      = Except.error (PyExc.http 404 "not found")
    ∧ test_email_outer (Except.error (PyExc.other "boom"))
      = Except.error (PyExc.http 500 "Failed to send test email: boom") :=
  ⟨(outer_boundary_policy _).1 404 "not found" rfl,
   ((outer_boundary_policy _).2 "boom" rfl).1⟩

/-- Claim C8: for every request whose email_type satisfies the Literal
enumeration of the request model, the handler never produces the error of
its invalid-type else branch; and, per the spec's schema-validation model,
a value outside the enumeration is rejected with a 400 before reaching
business logic. -/
theorem invalid_type_branch_unreachable (send : DispatchCall → Bool)
    (request : TestEmailRequest) :
    (validEmailType request.email_type = true →
      (test_email send request).1
        ≠ Except.error (PyExc.http 400 (invalid_type_detail request.email_type)))
    ∧ (validEmailType request.email_type = false →
      schema_validate_email_type request.email_type
        = Except.error (PyExc.http 400 ("Invalid email_type value: "
            ++ request.email_type))) := by
  constructor
  · intro hv
    have h3 : request.email_type = "verification" ∨ request.email_type = "password_reset"
        ∨ request.email_type = "custom" := by
      simpa [validEmailType, or_assoc] using hv
    rcases h3 with h | h | h
    · cases hs : send ⟨request.to_email, "🏥 Test Verification Email",
          get_verification_email_text verification_test_link,
          get_verification_email_html verification_test_link⟩ <;>
        simp [test_email, test_email_body, test_email_outer, afterContent, h, hs]
    · cases hs : send ⟨request.to_email, "🔒 Test Password Reset Email",
          get_password_reset_email_text password_reset_test_link,
          get_password_reset_email_html password_reset_test_link⟩ <;>
        simp [test_email, test_email_body, test_email_outer, afterContent, h, hs]
    · by_cases hmiss : (pyFalsy request.subject || pyFalsy request.text_content
          || pyFalsy request.html_content) = true
      · simp only [test_email, test_email_body, test_email_outer, h, hmiss]
        simp [invalid_type_detail]
      · have hmiss' : (pyFalsy request.subject || pyFalsy request.text_content
            || pyFalsy request.html_content) = false := by
          simpa using hmiss
        cases hs : send ⟨request.to_email, request.subject.getD "",
            (request.text_content.getD ""), (request.html_content.getD "")⟩ <;>
          simp [test_email, test_email_body, test_email_outer, afterContent, h, hmiss', hs]
  · intro hv
    simp [schema_validate_email_type, validEmailType] at hv ⊢
    simp [hv]

/-- Witness for C8: a valid email_type never hits the invalid-type branch,
and an invalid value is rejected by the modelled schema validation. -/
theorem invalid_type_branch_unreachable_check :
    (test_email (fun _ => true)
        ⟨"a@b.com", "verification", Option.none, Option.none, Option.none⟩).1
      ≠ Except.error (PyExc.http 400 (invalid_type_detail "verification"))
    ∧ schema_validate_email_type "bogus"
      = Except.error (PyExc.http 400 "Invalid email_type value: bogus") :=
  ⟨(invalid_type_branch_unreachable (fun _ => true)
      ⟨"a@b.com", "verification", Option.none, Option.none, Option.none⟩).1 rfl,
   (invalid_type_branch_unreachable (fun _ => true)
      ⟨"x", "bogus", Option.none, Option.none, Option.none⟩).2 rfl⟩

/-- Claim C9: every template builder is a total function interpolating the
link verbatim and unescaped: its output is a fixed boilerplate around the
link, so for every link — the empty string or one with HTML-sensitive
characters alike — the exact link string occurs as a substring of the
output. -/
theorem template_builders_interpolate_verbatim :
    (∃ p q : String, ∀ link : String, get_verification_email_text link = p ++ (link ++ q))
    ∧ (∃ p q : String, ∀ link : String, get_verification_email_html link = p ++ (link ++ q))
    ∧ (∃ p q : String, ∀ link : String, get_password_reset_email_text link = p ++ (link ++ q))
    ∧ (∃ p q : String, ∀ link : String, get_password_reset_email_html link = p ++ (link ++ q))
    ∧ ∀ link : String,
        containsStr (get_verification_email_text link) link
        ∧ containsStr (get_verification_email_html link) link
        ∧ containsStr (get_password_reset_email_text link) link
        ∧ containsStr (get_password_reset_email_html link) link := by
  refine ⟨⟨_, _, fun link => rfl⟩, ⟨_, _, fun link => rfl⟩, ⟨_, _, fun link => rfl⟩,
    ⟨_, _, fun link => rfl⟩, fun link => ⟨?_, ?_, ?_, ?_⟩⟩
  · exact ⟨_, _, rfl⟩
  · exact ⟨_, _, rfl⟩
  · exact ⟨_, _, rfl⟩
  · exact ⟨_, _, rfl⟩

/-- Claim C10: for the canned email types the handler is independent of the
optional subject, text_content and html_content fields: two requests that
agree on to_email and email_type produce the same response and the same
dispatch calls, whatever those fields hold. -/
theorem canned_ignores_optional_fields (send : DispatchCall → Bool)
    (r1 r2 : TestEmailRequest)
    (hto : r1.to_email = r2.to_email) (hty : r1.email_type = r2.email_type)
    (hcanned : r1.email_type = "verification" ∨ r1.email_type = "password_reset") :
    test_email send r1 = test_email send r2 := by
  rcases hcanned with h | h <;>
  · rw [hty] at h
    simp [test_email, test_email_body, afterContent, hty, hto, h]

/-- Witness for C10: supplying the optional fields on a verification request
changes nothing relative to omitting them. -/
theorem canned_ignores_optional_fields_check :
    test_email (fun _ => true)
        ⟨"a@b.com", "verification", Option.some "S", Option.some "T", Option.some "H"⟩
      = test_email (fun _ => true)
        ⟨"a@b.com", "verification", Option.none, Option.none, Option.none⟩ :=
  canned_ignores_optional_fields _ _ _ rfl rfl (Or.inl rfl)

end EmailTest
